import Mathlib

/-!
Shallow embedding of the Wild Rydes CDK stack:
`src/app.py` and `src/wild_rydes_cdk/wild_rydes_cdk_stack.py`.

The stack constructor (`WildRydesCdkStack.__init__`) is a straight-line
sequence of Python statements that attach constructs to the stack and
bind local variables.  Its final statement,

    request_unicorn_apigw = core.CfnOutput(
        self, 'request-unicorn-apigw',
        value=request_unicorn_apigw.url)

reads the local variable `request_unicorn_apigw` while evaluating the
right-hand side of the very assignment that would first bind it, so
Python's local-variable semantics are load-bearing.  The constructor
body is therefore embedded as an explicit statement list executed over
an environment of local variables: reading a local before its (only)
assignment yields an unbound-local error, exactly as in CPython.
Constructs attach to the scope at creation time, so the resource graph
accumulated before a failing statement survives that failure, while the
construct of the failing statement itself is never created (its
arguments are evaluated first, and that evaluation is what fails).

Construct identifiers in this stack are pairwise distinct even across
nested scopes, so the per-scope duplicate-identifier check of the
provisioning framework is modelled as a single identifier set; on this
program the two checks coincide.
-/

namespace WildRydes

/-- Local variables of `WildRydesCdkStack.__init__`
(src/wild_rydes_cdk/wild_rydes_cdk_stack.py, lines 17-181). -/
inductive Var
  | amplify_repo
  | app_repo
  | amplify_role
  | amplify_static_site
  | master
  | amplify_policy
  | rides_table
  | request_unicorn_role
  | request_unicorn
  | ride_api_gw
  | ride_api_gw_lambda_integration
  | post_ride_resource
  | post_ride_resource_method
  | ride_api_gw_authorizer
  | post_ride_resource_fix
  | amplify_repo_url
  | app_repo_url
  | amplify_default_domain
  | request_unicorn_apigw
  deriving DecidableEq, Repr

/-- Construct attributes read by the stack body (`x.repository_arn`,
`x.repository_clone_url_http`, `x.default_domain`, `x.url`,
`x.rest_api_id`, `x.logical_id`). -/
inductive AttrName
  | repository_arn
  | repository_clone_url_http
  | default_domain
  | url
  | rest_api_id
  | logical_id
  deriving DecidableEq, Repr

/-- A deferred cross-resource reference token (resolved only at
deployment time by the provisioning engine). -/
inductive Ref
  | getAtt (logicalId attr : String)
  | refId (logicalId : String)
  deriving DecidableEq, Repr

/-- The string form a reference token resolves to in the synthesized
artifact. -/
def renderRef : Ref → String
  | .getAtt l a => "Fn::GetAtt(" ++ l ++ "," ++ a ++ ")"
  | .refId l => "Ref(" ++ l ++ ")"

/-- A string-valued field of a resource: either a literal or a
reference token. -/
inductive SRef
  | lit (s : String)
  | tok (r : Ref)
  deriving DecidableEq, Repr

def SRef.render : SRef → String
  | .lit s => s
  | .tok r => renderRef r

inductive Effect
  | allow
  | deny
  deriving DecidableEq, Repr

/-- One IAM policy statement (`iam.PolicyStatement`). -/
structure PolicyStatement where
  effect : Effect
  actions : List String
  resources : List SRef
  deriving DecidableEq, Repr

inductive AttributeType
  | string
  | number
  | binary
  deriving DecidableEq, Repr

/-- `ddb.Attribute` (partition key declaration). -/
structure TableAttribute where
  name : String
  type : AttributeType
  deriving DecidableEq, Repr

inductive RemovalPolicy
  | destroy
  | retain
  deriving DecidableEq, Repr

inductive EndpointType
  | regional
  | edge
  deriving DecidableEq, Repr

inductive PassthroughBehavior
  | whenNoMatch
  | whenNoTemplates
  | never
  deriving DecidableEq, Repr

/-- An API gateway integration response (status code plus response
parameter map). -/
structure IntegrationResponse where
  statusCode : String
  responseParameters : List (String × String)
  deriving DecidableEq, Repr

/-- An API gateway method response (status code plus response
parameter enable map). -/
structure MethodResponse where
  statusCode : String
  responseParameters : List (String × Bool)
  deriving DecidableEq, Repr

/-- A method integration: either a Lambda integration bound to a
function construct, or a mock integration with static templates. -/
inductive Integration
  | lambdaIntegration (functionCid : String) (proxy : Bool)
      (integrationResponses : List IntegrationResponse)
  | mockIntegration (integrationResponses : List IntegrationResponse)
      (passthrough : PassthroughBehavior)
      (requestTemplates : List (String × String))
  deriving DecidableEq, Repr

/-- The function construct a method integration depends on, if any. -/
def Integration.functionCid : Integration → Option String
  | .lambdaIntegration c _ _ => some c
  | .mockIntegration _ _ _ => none

/-- A raw property override value (`add_property_override`): a literal
string, or a CloudFormation Ref dictionary pointing at a logical id. -/
inductive OverrideVal
  | str (s : String)
  | refTo (logicalId : String)
  deriving DecidableEq, Repr

/-- The access level of a table grant (`grant_write_data` and
relatives). -/
inductive GrantKind
  | readData
  | writeData
  | readWriteData
  | fullAccess
  deriving DecidableEq, Repr

def GrantKind.enablesWrite : GrantKind → Bool
  | .readData => false
  | .writeData => true
  | .readWriteData => true
  | .fullAccess => true

/-- A node of the declarative resource graph attached to the stack.
Each constructor mirrors one construct kind used by the source; the
first field is always the parent construct (the stack id for
top-level constructs), the second is the construct identifier. -/
inductive Resource
  | repository (parent cid repositoryName description : String)
  | iamRole (parent cid roleName assumedBy : String)
      (managedPolicies : List String)
  | amplifyApp (parent cid sourceRepoCid description roleCid appName : String)
  | branch (parent cid branchName : String)
  | iamPolicy (parent cid : String) (roleCids : List String)
      (statements : List PolicyStatement)
  | table (parent cid tableName : String) (partitionKey : TableAttribute)
      (removalPolicy : RemovalPolicy)
  | grant (parent tableCid roleCid : String) (kind : GrantKind)
  | lambdaFunction (parent cid handler runtime codeAsset roleCid functionName : String)
  | restApi (parent cid restApiName : String) (endpointTypes : List EndpointType)
  | apiResource (parent cid pathPart : String)
  | apiMethod (parent httpMethod : String) (integration : Integration)
      (methodResponses : List MethodResponse)
      (overrides : List (String × OverrideVal))
  | authorizer (parent cid : String) (restApiId : SRef)
      (name type identitySource identityValidationExpression : String)
      (providerArns : List String)
  | output (parent cid : String) (value : SRef)
  deriving DecidableEq, Repr

/-- The construct identifiers passed to the framework by the stack body
(the second positional argument of each construct call).  They are kept
as an enumeration so that the per-scope duplicate-identifier check is a
decidable equality on a finite type; `Cid.str` recovers the exact
identifier string from the source. -/
inductive Cid
  | amplify_wild_rydes_repo
  | app_serverless_workshop_repo
  | amplify_wild_rydes_role
  | amplify_wild_rydes_site
  | master_branch
  | amplify_wild_rydes_policy
  | table_cid
  | request_unicorn_role_cid
  | request_unicorn_cid
  | wild_rydes_apigw
  | ride_cid
  | post_cid
  | wild_rydes_apigw_authorizer
  | options_cid
  | amplify_repo_url_cid
  | app_repo_url_cid
  | amplify_default_domain_cid
  | request_unicorn_apigw_cid
  deriving DecidableEq, Repr

/-- The identifier string of each construct, as written in the source. -/
def Cid.str : Cid → String
  | .amplify_wild_rydes_repo => "amplify-wild-rydes-repo"
  | .app_serverless_workshop_repo => "app-serverless-workshop-repo"
  | .amplify_wild_rydes_role => "amplify-wild-rydes-role"
  | .amplify_wild_rydes_site => "amplify-wild-rydes-site"
  | .master_branch => "master"
  | .amplify_wild_rydes_policy => "amplify-wild-rydes-policy"
  | .table_cid => "Table"
  | .request_unicorn_role_cid => "RequestUnicornRole"
  | .request_unicorn_cid => "request-unicorn"
  | .wild_rydes_apigw => "wild-rydes-apigw"
  | .ride_cid => "ride"
  | .post_cid => "POST"
  | .wild_rydes_apigw_authorizer => "wild-rydes-apigw-authorizer"
  | .options_cid => "OPTIONS"
  | .amplify_repo_url_cid => "amplify-repo-url"
  | .app_repo_url_cid => "app-repo-url"
  | .amplify_default_domain_cid => "amplify-default-domain"
  | .request_unicorn_apigw_cid => "request-unicorn-apigw"

/-- Kinds of construct handles held by local variables. -/
inductive CKind
  | repo
  | role
  | app
  | branchK
  | policyK
  | tableK
  | funcK
  | api
  | resourceK
  | methodK
  | cfnMethod
  | authorizerK
  | outputK
  deriving DecidableEq, Repr

/-- A runtime value of a local variable of the constructor body. -/
inductive Value
  | strV (s : String)
  | tokV (r : Ref)
  | construct (kind : CKind) (cid : Cid)
  | integrationV (i : Integration)
  | noneV
  deriving DecidableEq, Repr

/-- Synthesis-time construction errors.  `unboundLocal` is Python's
UnboundLocalError; `duplicateId` is the provisioning framework's
rejection of a construct identifier already used in the scope. -/
inductive BuildError
  | unboundLocal (x : Var)
  | duplicateId (cid : Cid)
  | attributeError (cid : Cid) (a : AttrName)
  | typeError
  deriving DecidableEq, Repr

/-- An argument expression appearing at a call site of the constructor
body: a string literal, a local variable, or an attribute read on a
local variable. -/
inductive Arg
  | lit (s : String)
  | var (x : Var)
  | attrOf (x : Var) (a : AttrName)
  deriving DecidableEq, Repr

/-- The integration argument of `add_method`: either a local variable
holding an integration, or an inline `apigw.MockIntegration(...)`. -/
inductive IntegrationArg
  | fromVar (x : Var)
  | inlineMock (integrationResponses : List IntegrationResponse)
      (passthrough : PassthroughBehavior)
      (requestTemplates : List (String × String))
  deriving DecidableEq, Repr

/-- The value argument of `add_property_override`: a literal string, or
a Ref dictionary whose target is an attribute read. -/
inductive OverrideArg
  | strA (s : String)
  | refOf (a : Arg)
  deriving DecidableEq, Repr

/-- Right-hand-side expressions of the constructor body, one
constructor per framework call used by the source. -/
inductive Expr
  | repository (cid : Cid) (repositoryName description : String)
  | iamRole (cid : Cid) (roleName assumedBy : String) (managedPolicies : List String)
  | amplifyApp (cid : Cid) (sourceRepo : Arg) (description : String)
      (role : Arg) (appName : String)
  | addBranch (app : Arg) (branchName : Cid)
  | iamPolicy (cid : Cid) (roles : List Arg)
      (statements : List (Effect × List String × List Arg))
  | table (cid : Cid) (tableName : String) (partitionKey : TableAttribute)
      (removalPolicy : RemovalPolicy)
  | grantWriteData (tbl roleArg : Arg)
  | lambdaFunction (cid : Cid) (handler runtime codeAsset : String) (role : Arg)
      (functionName : String)
  | restApi (cid : Cid) (restApiName : String) (endpointTypes : List EndpointType)
  | lambdaIntegration (fn : Arg) (proxy : Bool)
      (integrationResponses : List IntegrationResponse)
  | addResource (api : Arg) (pathPart : Cid)
  | addMethod (res : Arg) (httpMethod : Cid) (integration : IntegrationArg)
      (methodResponses : List MethodResponse)
  | cfnAuthorizer (cid : Cid) (restApiId : Arg)
      (name type identitySource identityValidationExpression : String)
      (providerArns : List String)
  | findChild (x : Arg) (childName : String)
  | addPropertyOverride (target : Arg) (prop : String) (val : OverrideArg)
  | cfnOutput (cid : Cid) (value : Arg)
  deriving DecidableEq, Repr

/-- A statement of the constructor body: an assignment to a local, or a
bare expression statement.  In an assignment the right-hand side is
evaluated in the environment BEFORE the left-hand side is bound, as in
Python. -/
inductive Stmt
  | assign (lhs : Var) (rhs : Expr)
  | exprStmt (e : Expr)
  deriving DecidableEq, Repr

/-- Construction state: the stack's construct id, the local-variable
environment, the construct identifiers already used, and the resource
graph attached so far. -/
structure BuildState where
  stackId : String
  env : List (Var × Value)
  usedIds : List Cid
  resources : List Resource
  deriving Repr

def lookupVar : List (Var × Value) → Var → Option Value
  | [], _ => none
  | (y, v) :: rest, x => if y = x then some v else lookupVar rest x

/-- Resolve an attribute read on a construct handle.  Repository clone
URLs, the hosting app's domain and the API id/url are deferred
reference tokens; `logical_id` resolves to the construct's logical
identifier. -/
def attrValue (kind : CKind) (cid : Cid) : AttrName → Except BuildError Value
  | .repository_arn =>
      match kind with
      | .repo => .ok (.tokV (.getAtt cid.str "Arn"))
      | _ => .error (.attributeError cid .repository_arn)
  | .repository_clone_url_http =>
      match kind with
      | .repo => .ok (.tokV (.getAtt cid.str "CloneUrlHttp"))
      | _ => .error (.attributeError cid .repository_clone_url_http)
  | .default_domain =>
      match kind with
      | .app => .ok (.tokV (.getAtt cid.str "DefaultDomain"))
      | _ => .error (.attributeError cid .default_domain)
  | .url =>
      match kind with
      | .api => .ok (.tokV (.getAtt cid.str "Url"))
      | _ => .error (.attributeError cid .url)
  | .rest_api_id =>
      match kind with
      | .api => .ok (.tokV (.refId cid.str))
      | _ => .error (.attributeError cid .rest_api_id)
  | .logical_id =>
      match kind with
      | .authorizerK => .ok (.strV cid.str)
      | _ => .error (.attributeError cid .logical_id)

/-- Evaluate an argument expression in the current environment.
Reading a local variable that has not yet been assigned raises an
unbound-local error, as in Python. -/
def evalArg (s : BuildState) : Arg → Except BuildError Value
  | .lit v => .ok (.strV v)
  | .var x =>
      match lookupVar s.env x with
      | some v => .ok v
      | none => .error (.unboundLocal x)
  | .attrOf x a =>
      match lookupVar s.env x with
      | none => .error (.unboundLocal x)
      | some (.construct k cid) => attrValue k cid a
      | some _ => .error .typeError

def asCid : Value → Except BuildError Cid
  | .construct _ cid => .ok cid
  | _ => .error .typeError

def asSRef : Value → Except BuildError SRef
  | .strV v => .ok (.lit v)
  | .tokV r => .ok (.tok r)
  | _ => .error .typeError

/-- Register a construct identifier, rejecting duplicates. -/
def addCid (s : BuildState) (cid : Cid) : Except BuildError BuildState :=
  if cid ∈ s.usedIds then .error (.duplicateId cid)
  else .ok { s with usedIds := s.usedIds ++ [cid] }

def evalCids (s : BuildState) : List Arg → Except BuildError (List Cid)
  | [] => .ok []
  | a :: rest => do
      let v ← evalArg s a
      let c ← asCid v
      let cs ← evalCids s rest
      .ok (c :: cs)

def evalSRefs (s : BuildState) : List Arg → Except BuildError (List SRef)
  | [] => .ok []
  | a :: rest => do
      let v ← evalArg s a
      let r ← asSRef v
      let rs ← evalSRefs s rest
      .ok (r :: rs)

def evalPolicyStatements (s : BuildState) :
    List (Effect × List String × List Arg) → Except BuildError (List PolicyStatement)
  | [] => .ok []
  | (eff, acts, resArgs) :: rest => do
      let rs ← evalSRefs s resArgs
      let tail ← evalPolicyStatements s rest
      .ok (⟨eff, acts, rs⟩ :: tail)

/-- Append a property override on the method construct `mcid`. -/
def applyOverride (mcid prop : String) (ov : OverrideVal) : Resource → Resource
  | .apiMethod parent httpMethod integ mresp ovs =>
      if httpMethod = mcid then
        .apiMethod parent httpMethod integ mresp (ovs ++ [(prop, ov)])
      else
        .apiMethod parent httpMethod integ mresp ovs
  | r => r

/-- Evaluate one right-hand-side expression: arguments are evaluated in
the current environment, the construct (if any) registers its id and
attaches its resource to the graph, and the resulting value is
returned. -/
def evalExpr (s : BuildState) : Expr → Except BuildError (BuildState × Value)
  | .repository cid name desc => do
      let s ← addCid s cid
      .ok ({ s with resources := s.resources ++ [.repository s.stackId cid.str name desc] },
           .construct .repo cid)
  | .iamRole cid roleName assumedBy mp => do
      let s ← addCid s cid
      .ok ({ s with resources :=
               s.resources ++ [.iamRole s.stackId cid.str roleName assumedBy mp] },
           .construct .role cid)
  | .amplifyApp cid srcArg desc roleArg appName => do
      let src ← asCid (← evalArg s srcArg)
      let rl ← asCid (← evalArg s roleArg)
      let s ← addCid s cid
      .ok ({ s with resources :=
               s.resources ++ [.amplifyApp s.stackId cid.str src.str desc rl.str appName] },
           .construct .app cid)
  | .addBranch appArg branchName => do
      let ap ← asCid (← evalArg s appArg)
      let s ← addCid s branchName
      .ok ({ s with resources := s.resources ++ [.branch ap.str branchName.str branchName.str] },
           .construct .branchK branchName)
  | .iamPolicy cid roleArgs stmts => do
      let roles ← evalCids s roleArgs
      let pstmts ← evalPolicyStatements s stmts
      let s ← addCid s cid
      .ok ({ s with resources :=
               s.resources ++ [.iamPolicy s.stackId cid.str (roles.map Cid.str) pstmts] },
           .construct .policyK cid)
  | .table cid tableName pk rp => do
      let s ← addCid s cid
      .ok ({ s with resources := s.resources ++ [.table s.stackId cid.str tableName pk rp] },
           .construct .tableK cid)
  | .grantWriteData tblArg roleArg => do
      let tc ← asCid (← evalArg s tblArg)
      let rc ← asCid (← evalArg s roleArg)
      .ok ({ s with resources := s.resources ++ [.grant rc.str tc.str rc.str .writeData] },
           .noneV)
  | .lambdaFunction cid handler runtime code roleArg fname => do
      let rc ← asCid (← evalArg s roleArg)
      let s ← addCid s cid
      .ok ({ s with resources :=
               s.resources ++ [.lambdaFunction s.stackId cid.str handler runtime code rc.str fname] },
           .construct .funcK cid)
  | .restApi cid name et => do
      let s ← addCid s cid
      .ok ({ s with resources := s.resources ++ [.restApi s.stackId cid.str name et] },
           .construct .api cid)
  | .lambdaIntegration fnArg proxy iresp => do
      let fc ← asCid (← evalArg s fnArg)
      .ok (s, .integrationV (.lambdaIntegration fc.str proxy iresp))
  | .addResource apiArg pathPart => do
      let ac ← asCid (← evalArg s apiArg)
      let s ← addCid s pathPart
      .ok ({ s with resources := s.resources ++ [.apiResource ac.str pathPart.str pathPart.str] },
           .construct .resourceK pathPart)
  | .addMethod resArg httpMethod intArg mresp => do
      let rc ← asCid (← evalArg s resArg)
      let integ ←
        match intArg with
        | .fromVar x =>
            match lookupVar s.env x with
            | some (.integrationV i) => Except.ok i
            | some _ => Except.error .typeError
            | none => Except.error (.unboundLocal x)
        | .inlineMock ir pb rt => Except.ok (Integration.mockIntegration ir pb rt)
      let s ← addCid s httpMethod
      .ok ({ s with resources :=
               s.resources ++ [.apiMethod rc.str httpMethod.str integ mresp []] },
           .construct .methodK httpMethod)
  | .cfnAuthorizer cid apiIdArg name ty idsrc ive arns => do
      let apiId ← asSRef (← evalArg s apiIdArg)
      let s ← addCid s cid
      .ok ({ s with resources :=
               s.resources ++ [.authorizer s.stackId cid.str apiId name ty idsrc ive arns] },
           .construct .authorizerK cid)
  | .findChild xArg childName => do
      let v ← evalArg s xArg
      match v with
      | .construct .methodK mcid =>
          if childName = "Resource" then .ok (s, .construct .cfnMethod mcid)
          else .error .typeError
      | _ => .error .typeError
  | .addPropertyOverride tgtArg prop valArg => do
      let v ← evalArg s tgtArg
      match v with
      | .construct .cfnMethod mcid => do
          let ov ←
            match valArg with
            | .strA a => Except.ok (OverrideVal.str a)
            | .refOf a => do
                let w ← evalArg s a
                match w with
                | .strV l => Except.ok (OverrideVal.refTo l)
                | _ => Except.error BuildError.typeError
          .ok ({ s with resources := s.resources.map (applyOverride mcid.str prop ov) },
               .noneV)
      | _ => .error .typeError
  | .cfnOutput cid valArg => do
      let v ← evalArg s valArg
      let sr ← asSRef v
      let s ← addCid s cid
      .ok ({ s with resources := s.resources ++ [.output s.stackId cid.str sr] },
           .construct .outputK cid)

/-- Execute one statement.  For an assignment the right-hand side is
evaluated before the left-hand side becomes bound. -/
def execStmt (s : BuildState) : Stmt → Except BuildError BuildState
  | .assign lhs rhs => do
      let (s2, v) ← evalExpr s rhs
      .ok { s2 with env := (lhs, v) :: s2.env }
  | .exprStmt e => do
      let (s2, _) ← evalExpr s e
      .ok s2

/-- Run the statements in order; on the first error, return the state
reached before the failing statement (its constructs were never
created) together with the error. -/
def runStmts : BuildState → List Stmt → BuildState × Option BuildError
  | s, [] => (s, none)
  | s, st :: rest =>
      match execStmt s st with
      | .ok s2 => runStmts s2 rest
      | .error e => (s, some e)

/-- The body of `WildRydesCdkStack.__init__`
(src/wild_rydes_cdk/wild_rydes_cdk_stack.py lines 17-181), statement by
statement. -/
def stackStmts : List Stmt :=
  [ .assign .amplify_repo
      (.repository .amplify_wild_rydes_repo "amplify-wild-rydes"
        "Repo for the Wild Rydes static site for Amplify"),
    .assign .app_repo
      (.repository .app_serverless_workshop_repo "app-wild-rydes-serverless-workshop"
        "Repo for project from webapp.serverlessworkshops.io/staticwebhosting/overview/"),
    .assign .amplify_role
      (.iamRole .amplify_wild_rydes_role "amplify-wild-rydes-role"
        "amplify.amazonaws.com" []),
    .assign .amplify_static_site
      (.amplifyApp .amplify_wild_rydes_site (.var .amplify_repo)
        "Wild Rydes Amplify Static Site" (.var .amplify_role) "wild-rydes-site"),
    .assign .master (.addBranch (.var .amplify_static_site) .master_branch),
    .assign .amplify_policy
      (.iamPolicy .amplify_wild_rydes_policy [.var .amplify_role]
        [ (.allow, ["codecommit:GitPull"], [.attrOf .amplify_repo .repository_arn]),
          (.allow,
            ["amplify:GetApp", "amplify:CreateBackendEnvironment", "cloudformation:*",
             "cognito:*", "lambda:*", "s3:*", "iam:*"],
            [.lit "*"]) ]),
    .assign .rides_table
      (.table .table_cid "Rides" ⟨"RideId", .string⟩ .destroy),
    .assign .request_unicorn_role
      (.iamRole .request_unicorn_role_cid "wild-rydes-lambda-role" "lambda.amazonaws.com"
        ["service-role/AWSLambdaBasicExecutionRole"]),
    .exprStmt (.grantWriteData (.var .rides_table) (.var .request_unicorn_role)),
    .assign .request_unicorn
      (.lambdaFunction .request_unicorn_cid "requestUnicorn.handler" "NODEJS_12_X"
        "request_unicorn" (.var .request_unicorn_role) "request-unicorn-wild-rydes"),
    .assign .ride_api_gw
      (.restApi .wild_rydes_apigw "WildRydes" [.regional]),
    .assign .ride_api_gw_lambda_integration
      (.lambdaIntegration (.var .request_unicorn) true
        [⟨"200", [("method.response.header.Access-Control-Allow-Origin", "\x27*\x27")]⟩]),
    .assign .post_ride_resource (.addResource (.var .ride_api_gw) .ride_cid),
    .assign .post_ride_resource_method
      (.addMethod (.var .post_ride_resource) .post_cid
        (.fromVar .ride_api_gw_lambda_integration)
        [⟨"200", [("method.response.header.Access-Control-Allow-Origin", true)]⟩]),
    .assign .ride_api_gw_authorizer
      (.cfnAuthorizer .wild_rydes_apigw_authorizer
        (.attrOf .ride_api_gw .rest_api_id)
        "wild-rydes-apigw-authorizer" "COGNITO_USER_POOLS"
        "method.request.header.name.Authorization" "Bearer (.*)"
        ["arn:aws:cognito-idp:us-east-1:<ACCOUNT_ID>:userpool/<USER_POOL_ID>"]),
    .assign .post_ride_resource_fix
      (.findChild (.var .post_ride_resource_method) "Resource"),
    .exprStmt
      (.addPropertyOverride (.var .post_ride_resource_fix) "AuthorizationType"
        (.strA "COGNITO_USER_POOLS")),
    .exprStmt
      (.addPropertyOverride (.var .post_ride_resource_fix) "AuthorizerId"
        (.refOf (.attrOf .ride_api_gw_authorizer .logical_id))),
    .exprStmt
      (.addMethod (.var .post_ride_resource) .options_cid
        (.inlineMock
          [⟨"200",
            [("method.response.header.Access-Control-Allow-Headers",
              "\x27Content-Type,X-Amz-Date,Authorization,X-Api-Key,X-Amz-Security-Token\x27"),
             ("method.response.header.Access-Control-Allow-Origin", "\x27*\x27"),
             ("method.response.header.Access-Control-Allow-Methods", "\x27POST,OPTIONS\x27")]⟩]
          .whenNoMatch
          [("application/json", "\x7b\"statusCode\":200\x7d")])
        [⟨"200",
          [("method.response.header.Access-Control-Allow-Headers", true),
           ("method.response.header.Access-Control-Allow-Methods", true),
           ("method.response.header.Access-Control-Allow-Origin", true)]⟩]),
    .assign .amplify_repo_url
      (.cfnOutput .amplify_repo_url_cid (.attrOf .amplify_repo .repository_clone_url_http)),
    .assign .app_repo_url
      (.cfnOutput .app_repo_url_cid (.attrOf .app_repo .repository_clone_url_http)),
    .assign .amplify_default_domain
      (.cfnOutput .amplify_default_domain_cid (.attrOf .amplify_static_site .default_domain)),
    .assign .request_unicorn_apigw
      (.cfnOutput .request_unicorn_apigw_cid (.attrOf .request_unicorn_apigw .url)) ]

/-- The result of running the constructor: the resource graph attached
to the scope, and `none` if the constructor returned normally or the
error it raised. -/
structure BuildResult where
  resources : List Resource
  outcome : Option BuildError
  deriving DecidableEq, Repr

def initState (stackId : String) : BuildState :=
  { stackId := stackId, env := [], usedIds := [], resources := [] }

/-- `WildRydesCdkStack(scope, stackId)`: run the constructor body. -/
def buildStack (stackId : String) : BuildResult :=
  let (s, e) := runStmts (initState stackId) stackStmts
  { resources := s.resources, outcome := e }

/-- The stack identifier used by `src/app.py`. -/
def appStackId : String := "wild-rydes-cdk"

/-- The construction performed by `src/app.py`. -/
def appBuild : BuildResult := buildStack appStackId

/-- `app.synth()` runs only if the constructor call before it returned
normally; if construction raised, the process aborts and no synthesized
artifact is produced. -/
def appSynthesized : Option (List Resource) :=
  match appBuild.outcome with
  | none => some appBuild.resources
  | some _ => none

/-! Extractors over the resource graph, used to state the claims. -/

def isOutput : Resource → Bool
  | .output _ _ _ => true
  | _ => false

def outputs (rs : List Resource) : List Resource := rs.filter isOutput

def isTable : Resource → Bool
  | .table _ _ _ _ _ => true
  | _ => false

def tables (rs : List Resource) : List Resource := rs.filter isTable

def isGrant : Resource → Bool
  | .grant _ _ _ _ => true
  | _ => false

def grants (rs : List Resource) : List Resource := rs.filter isGrant

def isAuthorizer : Resource → Bool
  | .authorizer _ _ _ _ _ _ _ _ => true
  | _ => false

def authorizers (rs : List Resource) : List Resource := rs.filter isAuthorizer

/-- The methods attached to the API resource construct `ride`
(path part `/ride`). -/
def isRideMethod : Resource → Bool
  | .apiMethod parent _ _ _ _ => if parent = "ride" then true else false
  | _ => false

def rideMethods (rs : List Resource) : List Resource := rs.filter isRideMethod

/-- The physical (account-level) name declared by a repository, role,
table or function resource. -/
def physicalName : Resource → Option String
  | .repository _ _ n _ => some n
  | .iamRole _ _ n _ _ => some n
  | .table _ _ n _ _ => some n
  | .lambdaFunction _ _ _ _ _ _ n => some n
  | _ => none

def physicalNames (rs : List Resource) : List String := rs.filterMap physicalName

/-- The resource graph the constructor attaches before it fails, as an
explicit list. -/
def wildRydesResources (stackId : String) : List Resource :=
  [ .repository stackId "amplify-wild-rydes-repo" "amplify-wild-rydes"
      "Repo for the Wild Rydes static site for Amplify",
    .repository stackId "app-serverless-workshop-repo" "app-wild-rydes-serverless-workshop"
      "Repo for project from webapp.serverlessworkshops.io/staticwebhosting/overview/",
    .iamRole stackId "amplify-wild-rydes-role" "amplify-wild-rydes-role"
      "amplify.amazonaws.com" [],
    .amplifyApp stackId "amplify-wild-rydes-site" "amplify-wild-rydes-repo"
      "Wild Rydes Amplify Static Site" "amplify-wild-rydes-role" "wild-rydes-site",
    .branch "amplify-wild-rydes-site" "master" "master",
    .iamPolicy stackId "amplify-wild-rydes-policy" ["amplify-wild-rydes-role"]
      [ ⟨.allow, ["codecommit:GitPull"],
          [.tok (.getAtt "amplify-wild-rydes-repo" "Arn")]⟩,
        ⟨.allow,
          ["amplify:GetApp", "amplify:CreateBackendEnvironment", "cloudformation:*",
           "cognito:*", "lambda:*", "s3:*", "iam:*"],
          [.lit "*"]⟩ ],
    .table stackId "Table" "Rides" ⟨"RideId", .string⟩ .destroy,
    .iamRole stackId "RequestUnicornRole" "wild-rydes-lambda-role" "lambda.amazonaws.com"
      ["service-role/AWSLambdaBasicExecutionRole"],
    .grant "RequestUnicornRole" "Table" "RequestUnicornRole" .writeData,
    .lambdaFunction stackId "request-unicorn" "requestUnicorn.handler" "NODEJS_12_X"
      "request_unicorn" "RequestUnicornRole" "request-unicorn-wild-rydes",
    .restApi stackId "wild-rydes-apigw" "WildRydes" [.regional],
    .apiResource "wild-rydes-apigw" "ride" "ride",
    .apiMethod "ride" "POST"
      (.lambdaIntegration "request-unicorn" true
        [⟨"200", [("method.response.header.Access-Control-Allow-Origin", "\x27*\x27")]⟩])
      [⟨"200", [("method.response.header.Access-Control-Allow-Origin", true)]⟩]
      [ ("AuthorizationType", .str "COGNITO_USER_POOLS"),
        ("AuthorizerId", .refTo "wild-rydes-apigw-authorizer") ],
    .authorizer stackId "wild-rydes-apigw-authorizer" (.tok (.refId "wild-rydes-apigw"))
      "wild-rydes-apigw-authorizer" "COGNITO_USER_POOLS"
      "method.request.header.name.Authorization" "Bearer (.*)"
      ["arn:aws:cognito-idp:us-east-1:<ACCOUNT_ID>:userpool/<USER_POOL_ID>"],
    .apiMethod "ride" "OPTIONS"
      (.mockIntegration
        [⟨"200",
          [("method.response.header.Access-Control-Allow-Headers",
            "\x27Content-Type,X-Amz-Date,Authorization,X-Api-Key,X-Amz-Security-Token\x27"),
           ("method.response.header.Access-Control-Allow-Origin", "\x27*\x27"),
           ("method.response.header.Access-Control-Allow-Methods", "\x27POST,OPTIONS\x27")]⟩]
        .whenNoMatch
        [("application/json", "\x7b\"statusCode\":200\x7d")])
      [⟨"200",
        [("method.response.header.Access-Control-Allow-Headers", true),
         ("method.response.header.Access-Control-Allow-Methods", true),
         ("method.response.header.Access-Control-Allow-Origin", true)]⟩]
      [],
    .output stackId "amplify-repo-url" (.tok (.getAtt "amplify-wild-rydes-repo" "CloneUrlHttp")),
    .output stackId "app-repo-url" (.tok (.getAtt "app-serverless-workshop-repo" "CloneUrlHttp")),
    .output stackId "amplify-default-domain"
      (.tok (.getAtt "amplify-wild-rydes-site" "DefaultDomain")) ]

/-- Accessors used in the claim statements. -/
def methodIntegration : Resource → Option Integration
  | .apiMethod _ _ i _ _ => some i
  | _ => none

def methodResponsesOf : Resource → List MethodResponse
  | .apiMethod _ _ _ mr _ => mr
  | _ => []

def methodOverrides : Resource → Option (List (String × OverrideVal))
  | .apiMethod _ _ _ _ ovs => some ovs
  | _ => none

def authorizerCid : Resource → Option String
  | .authorizer _ cid _ _ _ _ _ _ => some cid
  | _ => none

def isPostRideMethod : Resource → Bool
  | .apiMethod parent httpMethod _ _ _ =>
      if parent = "ride" then (if httpMethod = "POST" then true else false) else false
  | _ => false

/-- The POST method on `/ride` as it stands in the attached graph,
after the two property overrides. -/
def postMethodResource : Resource :=
  .apiMethod "ride" "POST"
    (.lambdaIntegration "request-unicorn" true
      [⟨"200", [("method.response.header.Access-Control-Allow-Origin", "\x27*\x27")]⟩])
    [⟨"200", [("method.response.header.Access-Control-Allow-Origin", true)]⟩]
    [ ("AuthorizationType", .str "COGNITO_USER_POOLS"),
      ("AuthorizerId", .refTo "wild-rydes-apigw-authorizer") ]

/-- The OPTIONS method on `/ride` as it stands in the attached graph. -/
def optionsMethodResource : Resource :=
  .apiMethod "ride" "OPTIONS"
    (.mockIntegration
      [⟨"200",
        [("method.response.header.Access-Control-Allow-Headers",
          "\x27Content-Type,X-Amz-Date,Authorization,X-Api-Key,X-Amz-Security-Token\x27"),
         ("method.response.header.Access-Control-Allow-Origin", "\x27*\x27"),
         ("method.response.header.Access-Control-Allow-Methods", "\x27POST,OPTIONS\x27")]⟩]
      .whenNoMatch
      [("application/json", "\x7b\"statusCode\":200\x7d")])
    [⟨"200",
      [("method.response.header.Access-Control-Allow-Headers", true),
       ("method.response.header.Access-Control-Allow-Methods", true),
       ("method.response.header.Access-Control-Allow-Origin", true)]⟩]
    []

/-- Evaluating the constructor body in full: for every stack identifier
the build attaches exactly the resources of `wildRydesResources` and
then stops with the unbound-local error raised while evaluating the
fourth output's value. -/
theorem buildStack_eq (stackId : String) :
    buildStack stackId =
      { resources := wildRydesResources stackId,
        outcome := some (.unboundLocal .request_unicorn_apigw) } := by
  simp [buildStack, runStmts, execStmt, evalExpr, evalArg, lookupVar, addCid,
    attrValue, asCid, asSRef, evalCids, evalSRefs, evalPolicyStatements,
    applyOverride, initState, stackStmts, Cid.str, wildRydesResources,
    Except.instMonad, Except.bind, Except.pure, Except.map,
    List.mem_cons, List.mem_singleton]

/-- C1 (code bug evidence): at the input used by `src/app.py`
(identifier `wild-rydes-cdk`), no synthesized graph is ever produced —
the constructor raises an unbound-local error while evaluating the
fourth output's value — and only three named outputs (the two
repository clone URLs and the hosting app's default domain) are ever
attached, not the four the specification requires. -/
theorem C1_only_three_outputs_and_no_synthesis :
    appSynthesized = none
    ∧ appBuild.outcome = some (BuildError.unboundLocal Var.request_unicorn_apigw)
    ∧ (outputs appBuild.resources).length = 3 := by
  refine ⟨?_, ?_, ?_⟩ <;>
    simp [appSynthesized, appBuild, appStackId, buildStack_eq, outputs, isOutput,
      wildRydesResources]

/-- C2 (code bug evidence): at the input used by `src/app.py` — no
identifier collision, every cross-reference syntactically well-formed —
construction still fails, and the error it fails with is an
unbound-local error, which is neither a duplicate-identifier error nor
any other member of the claimed error taxonomy. -/
theorem C2_failure_outside_claimed_taxonomy :
    appBuild.outcome = some (BuildError.unboundLocal Var.request_unicorn_apigw)
    ∧ (∀ cid : Cid,
        (BuildError.unboundLocal Var.request_unicorn_apigw : BuildError)
          ≠ BuildError.duplicateId cid) := by
  refine ⟨?_, ?_⟩
  · simp [appBuild, appStackId, buildStack_eq]
  · intro cid
    simp

/-- C3: for every stack identifier, the constructor raises an
unbound-local error on the variable `request_unicorn_apigw` while
building the fourth output, so it never returns normally, and the
attached graph contains exactly the first three outputs — no graph
containing the fourth output is ever produced. -/
theorem C3_constructor_raises_unbound_local (stackId : String) :
    (buildStack stackId).outcome
        = some (BuildError.unboundLocal Var.request_unicorn_apigw)
    ∧ outputs (buildStack stackId).resources =
        [ .output stackId "amplify-repo-url"
            (.tok (.getAtt "amplify-wild-rydes-repo" "CloneUrlHttp")),
          .output stackId "app-repo-url"
            (.tok (.getAtt "app-serverless-workshop-repo" "CloneUrlHttp")),
          .output stackId "amplify-default-domain"
            (.tok (.getAtt "amplify-wild-rydes-site" "DefaultDomain")) ] := by
  rw [buildStack_eq]
  exact ⟨rfl, rfl⟩

/-- C4: for every stack identifier, the POST method resource on `/ride`
carries exactly the two property overrides — authorization type
`COGNITO_USER_POOLS` and authorizer id a Ref to the logical id
`wild-rydes-apigw-authorizer` — and that logical id is exactly the
construct id of the one declared authorizer. -/
theorem C4_post_method_authorizer_override (stackId : String) :
    ((buildStack stackId).resources.filter isPostRideMethod).map methodOverrides =
      [some [("AuthorizationType", OverrideVal.str "COGNITO_USER_POOLS"),
             ("AuthorizerId", OverrideVal.refTo "wild-rydes-apigw-authorizer")]]
    ∧ (buildStack stackId).resources.filterMap authorizerCid =
        ["wild-rydes-apigw-authorizer"] := by
  rw [buildStack_eq]
  exact ⟨rfl, rfl⟩

/-- C5: for every stack identifier, the resource path `/ride` carries
exactly two methods — POST, integrated with the `request-unicorn`
function in proxy mode with the Access-Control-Allow-Origin response
parameter present, and OPTIONS, a mock integration with static CORS
headers and no function dependency — and no other method. -/
theorem C5_ride_has_exactly_post_and_options (stackId : String) :
    rideMethods (buildStack stackId).resources =
        [postMethodResource, optionsMethodResource]
    ∧ methodIntegration postMethodResource =
        some (.lambdaIntegration "request-unicorn" true
          [⟨"200", [("method.response.header.Access-Control-Allow-Origin", "\x27*\x27")]⟩])
    ∧ (methodIntegration postMethodResource).bind Integration.functionCid =
        some "request-unicorn"
    ∧ (∃ mr ∈ methodResponsesOf postMethodResource,
        ("method.response.header.Access-Control-Allow-Origin", true)
          ∈ mr.responseParameters)
    ∧ methodIntegration optionsMethodResource =
        some (.mockIntegration
          [⟨"200",
            [("method.response.header.Access-Control-Allow-Headers",
              "\x27Content-Type,X-Amz-Date,Authorization,X-Api-Key,X-Amz-Security-Token\x27"),
             ("method.response.header.Access-Control-Allow-Origin", "\x27*\x27"),
             ("method.response.header.Access-Control-Allow-Methods", "\x27POST,OPTIONS\x27")]⟩]
          .whenNoMatch
          [("application/json", "\x7b\"statusCode\":200\x7d")])
    ∧ (methodIntegration optionsMethodResource).bind Integration.functionCid = none := by
  refine ⟨?_, rfl, rfl, ?_, rfl, rfl⟩
  · rw [buildStack_eq]
    rfl
  · exact ⟨⟨"200", [("method.response.header.Access-Control-Allow-Origin", true)]⟩,
      by simp [methodResponsesOf, postMethodResource], by simp⟩

/-- C6: for every stack identifier, the attached graph contains exactly
one table resource; its partition key is named `RideId` with string
type, and its removal policy is destroy (non-retaining). -/
theorem C6_single_table_ride_id_destroy (stackId : String) :
    tables (buildStack stackId).resources =
        [.table stackId "Table" "Rides" ⟨"RideId", .string⟩ .destroy]
    ∧ RemovalPolicy.destroy ≠ RemovalPolicy.retain := by
  refine ⟨?_, by simp⟩
  rw [buildStack_eq]
  rfl

/-- C7: for every stack identifier, the attached graph contains exactly
one grant resource; it grants the compute role (`RequestUnicornRole`,
role name `wild-rydes-lambda-role`) write access on the table, and —
being the only grant in the graph — no other role holds any grant. -/
theorem C7_single_write_grant_for_compute_role (stackId : String) :
    grants (buildStack stackId).resources =
        [.grant "RequestUnicornRole" "Table" "RequestUnicornRole" .writeData]
    ∧ GrantKind.enablesWrite .writeData = true := by
  refine ⟨?_, rfl⟩
  rw [buildStack_eq]
  rfl

/-- C8 (counterexample): re-synthesizing cannot produce structurally
identical graphs because synthesis never happens at all — at the
concrete identifier `wild-rydes-cdk` used by `src/app.py`, construction
raises before `app.synth()` is reached and no synthesized graph
exists. -/
theorem C8_counterexample_no_synthesized_graph : appSynthesized = none := by
  simp [appSynthesized, appBuild, appStackId, buildStack_eq]

/-- C8 (amended): the builder is deterministic — for every identifier
the construction attaches exactly the fixed resource list
`wildRydesResources stackId` and fails with the identical unbound-local
error, so two constructions with the same identifier behave
identically; but construction never completes, so no synthesized graph
is produced. -/
theorem C8_build_is_deterministic (stackId otherId : String) :
    buildStack stackId =
      { resources := wildRydesResources stackId,
        outcome := some (.unboundLocal .request_unicorn_apigw) }
    ∧ (buildStack stackId).outcome = (buildStack otherId).outcome := by
  rw [buildStack_eq, buildStack_eq]
  exact ⟨rfl, rfl⟩

/-- C9: for every stack identifier, the attached graph declares exactly
one authorizer, with type `COGNITO_USER_POOLS`, identity source
`method.request.header.name.Authorization` (with the extra `name`
segment between `header` and `Authorization`), validation expression
`Bearer (.*)`, and a single provider reference that is a literal ARN
containing the unresolved placeholders `<ACCOUNT_ID>` and
`<USER_POOL_ID>`. -/
theorem C9_authorizer_configuration (stackId : String) :
    authorizers (buildStack stackId).resources =
        [ .authorizer stackId "wild-rydes-apigw-authorizer"
            (.tok (.refId "wild-rydes-apigw"))
            "wild-rydes-apigw-authorizer" "COGNITO_USER_POOLS"
            "method.request.header.name.Authorization" "Bearer (.*)"
            ["arn:aws:cognito-idp:us-east-1:<ACCOUNT_ID>:userpool/<USER_POOL_ID>"] ]
    ∧ "arn:aws:cognito-idp:us-east-1:<ACCOUNT_ID>:userpool/<USER_POOL_ID>" =
        "arn:aws:cognito-idp:us-east-1:" ++ "<ACCOUNT_ID>" ++ ":userpool/"
          ++ "<USER_POOL_ID>"
    ∧ "method.request.header.name.Authorization" =
        "method.request.header." ++ "name" ++ "." ++ "Authorization" := by
  refine ⟨?_, rfl, rfl⟩
  rw [buildStack_eq]
  rfl

/-- C10: the physical resource names declared in the graph are fixed
constants — the two repository names, the two role names, the table
name and the function name — independent of the construct identifier,
so two stacks built with distinct identifiers declare identical
physical names. -/
theorem C10_physical_names_independent_of_identifier (stackId otherId : String) :
    physicalNames (buildStack stackId).resources =
        ["amplify-wild-rydes", "app-wild-rydes-serverless-workshop",
         "amplify-wild-rydes-role", "Rides", "wild-rydes-lambda-role",
         "request-unicorn-wild-rydes"]
    ∧ physicalNames (buildStack stackId).resources =
        physicalNames (buildStack otherId).resources := by
  rw [buildStack_eq, buildStack_eq]
  exact ⟨rfl, rfl⟩

end WildRydes
